import Mathlib

/-!
Verification of the MailShieldAI email-threat pipeline.

Shallow embedding of the core pipeline of this repository:
  ingest producer with its static risk gate (apps/api/routers/emails.py,
  apps/api/services/risk.py), the intent worker
  (apps/worker/intent/main.py), the aggregator
  (apps/worker/aggregator/main.py) and the action worker
  (apps/worker/action/main.py, apps/worker/action/gmail_labels.py).

Modelling conventions:
  - Python dict stream payloads become typed records or association lists
    (`List (String × String)`); `dict.get` becomes `List.lookup`.
  - ISO-8601 timestamps are modelled as integer epoch seconds; `isoformat`
    and `fromisoformat` round-trip, so both sides of the round trip are the
    identity on the integer model.
  - Python floats in the risk-score formula are modelled as rationals;
    `int()` truncation becomes `pyInt` (floor for non-negative values,
    ceiling for negative ones, i.e. truncation toward zero).
  - External collaborators (the LangGraph intent classifier, Gmail, the
    Gemini fallback) are inputs of the embedded functions: their results
    are passed as arguments, exactly where the code consumes them.
-/

namespace MailShield

/-- EmailStatus from packages/shared/constants.py. -/
inductive EmailStatus
  | PENDING
  | PROCESSING
  | COMPLETED
  | FAILED
  | SPAM
deriving DecidableEq, Repr

/-- RiskTier from packages/shared/constants.py. -/
inductive RiskTier
  | SAFE
  | CAUTIOUS
  | THREAT
deriving DecidableEq, Repr

/-- Intent taxonomy from apps/worker/intent/taxonomy.py. -/
inductive Intent
  | meeting_request
  | task_request
  | follow_up
  | invoice
  | payment
  | support
  | sales
  | newsletter
  | spam
  | personal
  | phishing
  | malware
  | social_engineering
  | bec_fraud
  | reconnaissance
  | unknown
deriving DecidableEq, Repr

/-- String value of each Intent enum member (taxonomy.py). -/
def intentValue : Intent → String
  | .meeting_request => "meeting_request"
  | .task_request => "task_request"
  | .follow_up => "follow_up"
  | .invoice => "invoice"
  | .payment => "payment"
  | .support => "support"
  | .sales => "sales"
  | .newsletter => "newsletter"
  | .spam => "spam"
  | .personal => "personal"
  | .phishing => "phishing"
  | .malware => "malware"
  | .social_engineering => "social_engineering"
  | .bec_fraud => "bec_fraud"
  | .reconnaissance => "reconnaissance"
  | .unknown => "unknown"

/-- RISK_MAPPING from apps/worker/intent/main.py: intent → base risk score. -/
def RISK_MAPPING : Intent → ℕ
  | .phishing => 95
  | .malware => 98
  | .social_engineering => 90
  | .bec_fraud => 95
  | .reconnaissance => 75
  | .spam => 60
  | .invoice => 40
  | .payment => 45
  | .sales => 30
  | .meeting_request => 15
  | .task_request => 15
  | .follow_up => 10
  | .support => 20
  | .newsletter => 25
  | .personal => 10
  | .unknown => 50

/-- Python str.lower for the ASCII strings used on the wire. -/
def strLower (s : String) : String := String.mk (s.toList.map Char.toLower)

/-- Python str(bool): "True" or "False" (used by the ingest control payload). -/
def pyStrBool (b : Bool) : String := if b then "True" else "False"

/-- Python int() on a rational: truncation toward zero. -/
def pyInt (q : ℚ) : ℤ := if 0 ≤ q then ⌊q⌋ else ⌈q⌉

/-- Index of the last occurrence of a character, scanning with offset. -/
def lastIdxOfAux : List Char → Char → ℕ → Option ℕ
  | [], _, _ => none
  | x :: xs, c, i =>
    match lastIdxOfAux xs c (i + 1) with
    | some j => some j
    | none => if x = c then some i else none

/-- Index of the last occurrence of a character in a list (Python rfind). -/
def lastIdxOf (l : List Char) (c : Char) : Option ℕ := lastIdxOfAux l c 0

/-- Extension part of os.path.splitext (posixpath): the suffix from the last
dot, provided the dot lies after the last path separator and at least one
character of the base name before it is not a dot (leading dots of a base
name never start an extension). -/
def splitextExt (p : String) : String :=
  let l := p.toList
  match lastIdxOf l '.' with
  | none => ""
  | some d =>
    let start : ℕ :=
      match lastIdxOf l '/' with
      | none => 0
      | some s => s + 1
    if start ≤ d ∧ ((l.drop start).take (d - start)).any (fun ch => ch != '.') then
      String.mk (l.drop d)
    else ""

/-- Attachment metadata as consumed by the risk gate (packages/shared/types.py). -/
structure Attachment where
  filename : String
  mime_type : String
deriving DecidableEq, Repr

/-- StructuredEmail: the parsed email record the ingest producer consumes.
auth_status is flattened into the three per-protocol fields. -/
structure StructuredEmail where
  sender : String
  recipient : String
  subject : String
  body_preview : Option String
  body_text : Option String
  body_html : Option String
  message_id : String
  received_at : Option ℤ
  spf_status : Option String
  dkim_status : Option String
  dmarc_status : Option String
  sender_ip : Option String
  attachments : List Attachment
  extracted_urls : List String
deriving DecidableEq, Repr

/-- RISKY_EXTENSIONS from apps/api/services/risk.py. -/
def RISKY_EXTENSIONS : List String :=
  [".exe", ".scr", ".vbs", ".js", ".bat", ".iso", ".dll", ".ps1"]

/-- Attachment step of the risk-gate loop: accumulates (score, reasons,
should_sandbox) over one attachment, mirroring the for-loop body of
evaluate_static_risk. -/
def riskAttStep (acc : ℕ × List String × Bool) (att : Attachment) : ℕ × List String × Bool :=
  let ext := strLower (splitextExt att.filename)
  if ext ∈ RISKY_EXTENSIONS then
    (acc.1 + 70, acc.2.1 ++ ["Risky extension " ++ ext], true)
  else if att.mime_type = "application/zip" then
    (acc.1 + 30, acc.2.1 ++ ["Archive attachment"], true)
  else acc

/-- evaluate_static_risk from apps/api/services/risk.py.
Returns (should_sandbox, reason, static_risk_score). -/
def evaluate_static_risk (payload : StructuredEmail) : Bool × String × ℕ :=
  let a := payload.attachments.foldl riskAttStep (0, [], false)
  let b :=
    if payload.extracted_urls.length > 0 then
      if payload.extracted_urls.length > 3 then
        (a.1 + 5 + 20, a.2.1 ++ ["Many URLs"], true)
      else (a.1 + 5, a.2.1, a.2.2)
    else a
  let score := min b.1 100
  let reason := if b.2.1 = [] then "Low static risk" else String.intercalate ("; ") b.2.1
  let sandbox := if score > 50 then true else b.2.2
  (sandbox, reason, score)

/-- Score an attachment gets in the risk gate: 70 for a risky extension,
otherwise 30 for a zip MIME type, otherwise 0 (the elif of the source). -/
def attScore (att : Attachment) : ℕ :=
  if strLower (splitextExt att.filename) ∈ RISKY_EXTENSIONS then 70
  else if att.mime_type = "application/zip" then 30
  else 0

/-- Whether an attachment forces sandboxing in the risk gate. -/
def attSandbox (att : Attachment) : Bool :=
  if strLower (splitextExt att.filename) ∈ RISKY_EXTENSIONS then true
  else if att.mime_type = "application/zip" then true
  else false

/-- Modelled from the claim wording of the static risk gate: every attachment
with a risky extension adds 70 AND every attachment with MIME
application/zip adds 30 (additively, not as an elif case split), plus the
URL bonuses, clamped to 100. Written to compare with evaluate_static_risk. -/
def claimed_static_score (payload : StructuredEmail) : ℕ :=
  min
    (70 * (payload.attachments.filter
        (fun a => strLower (splitextExt a.filename) ∈ RISKY_EXTENSIONS)).length
      + 30 * (payload.attachments.filter (fun a => a.mime_type = "application/zip")).length
      + (if payload.extracted_urls.length > 0 then 5 else 0)
      + (if payload.extracted_urls.length > 3 then 20 else 0))
    100

/-- A blank email envelope used to build concrete test inputs. -/
def blankEmail : StructuredEmail :=
  { sender := "a@x.com"
    recipient := "b@y.com"
    subject := "hello"
    body_preview := some "hi"
    body_text := some "hi"
    body_html := none
    message_id := "m-1"
    received_at := some 0
    spf_status := none
    dkim_status := none
    dmarc_status := none
    sender_ip := none
    attachments := []
    extracted_urls := [] }

/-- An email whose single attachment has both a risky extension and the zip
MIME type: the elif in the source adds only 70, while the claim's additive
reading adds 70 + 30. -/
def exeZipEmail : StructuredEmail :=
  { blankEmail with attachments := [{ filename := "a.exe", mime_type := "application/zip" }] }

/-- Score component of the attachment fold only depends additively on the
per-attachment score. -/
theorem riskFold_score (l : List Attachment) :
    ∀ s r b, (l.foldl riskAttStep (s, r, b)).1 = s + (l.map attScore).sum := by
  induction l with
  | nil => intro s r b; simp
  | cons a t ih =>
    intro s r b
    by_cases h1 : strLower (splitextExt a.filename) ∈ RISKY_EXTENSIONS
    · simp only [List.foldl_cons, riskAttStep, h1, if_true, ih, List.map_cons, List.sum_cons,
        attScore]
      omega
    · by_cases h2 : a.mime_type = "application/zip"
      · simp only [List.foldl_cons, riskAttStep, h1, if_false, h2, if_true, ih, List.map_cons,
          List.sum_cons, attScore]
        omega
      · simp only [List.foldl_cons, riskAttStep, h1, h2, if_false, ih, List.map_cons,
          List.sum_cons, attScore]
        omega

/-- Sandbox component of the attachment fold is the or of the per-attachment
sandbox flags. -/
theorem riskFold_sandbox (l : List Attachment) :
    ∀ s r b, (l.foldl riskAttStep (s, r, b)).2.2 = (b || l.any attSandbox) := by
  induction l with
  | nil => intro s r b; simp
  | cons a t ih =>
    intro s r b
    by_cases h1 : strLower (splitextExt a.filename) ∈ RISKY_EXTENSIONS
    · simp [riskAttStep, h1, ih, attSandbox]
    · by_cases h2 : a.mime_type = "application/zip"
      · simp [riskAttStep, h1, h2, ih, attSandbox]
      · simp [riskAttStep, h1, h2, ih, attSandbox]

/-- C5 (amended): the static risk gate is a pure deterministic function of
attachments and URLs. Per attachment the score contribution is 70 for a
risky extension, ELSE 30 for MIME application/zip (the source's elif — not
both); any URL adds 5 and more than 3 URLs add a further 20; the score is
clamped to 100; requiresSandbox holds iff some attachment is risky (by
either branch), or there are more than 3 URLs, or the clamped score
exceeds 50. -/
theorem static_risk_gate_characterization (p : StructuredEmail) :
    (evaluate_static_risk p).2.2 =
      min ((p.attachments.map attScore).sum
        + (if 0 < p.extracted_urls.length then 5 else 0)
        + (if 3 < p.extracted_urls.length then 20 else 0)) 100
    ∧ (evaluate_static_risk p).1 =
      (p.attachments.any attSandbox || decide (3 < p.extracted_urls.length)
        || decide (50 < (evaluate_static_risk p).2.2)) := by
  have hs := riskFold_score p.attachments 0 [] false
  have hb := riskFold_sandbox p.attachments 0 [] false
  have hscore : (evaluate_static_risk p).2.2 =
      min ((p.attachments.map attScore).sum
        + (if 0 < p.extracted_urls.length then 5 else 0)
        + (if 3 < p.extracted_urls.length then 20 else 0)) 100 := by
    by_cases h3 : 3 < p.extracted_urls.length
    · have h0 : 0 < p.extracted_urls.length := by omega
      simp [evaluate_static_risk, h0, h3, hs]
    · by_cases h0 : 0 < p.extracted_urls.length
      · simp [evaluate_static_risk, h0, h3, hs]
      · simp [evaluate_static_risk, h0, h3, hs]
  refine ⟨hscore, ?_⟩
  rw [hscore]
  by_cases h50 : 50 < min ((p.attachments.map attScore).sum
      + (if 0 < p.extracted_urls.length then 5 else 0)
      + (if 3 < p.extracted_urls.length then 20 else 0)) 100
  · have hsc : 50 < (evaluate_static_risk p).2.2 := by rw [hscore]; exact h50
    by_cases h3 : 3 < p.extracted_urls.length
    · have h0 : 0 < p.extracted_urls.length := by omega
      simp [evaluate_static_risk, h0, h3, hb, h50, hs]
    · by_cases h0 : 0 < p.extracted_urls.length
      · have h50x : 50 < min ((p.attachments.foldl riskAttStep (0, [], false)).1 + 5) 100 := by
          rw [hs] at *
          simp [h0, h3] at h50
          omega
        simp [evaluate_static_risk, h0, h3, hb, h50, h50x, hs, Bool.or_comm]
      · have h50x : 50 < min (p.attachments.foldl riskAttStep (0, [], false)).1 100 := by
          rw [hs] at *
          simp [h0, h3] at h50
          omega
        simp [evaluate_static_risk, h0, h3, hb, h50, h50x, hs, Bool.or_comm]
  · by_cases h3 : 3 < p.extracted_urls.length
    · have h0 : 0 < p.extracted_urls.length := by omega
      simp [evaluate_static_risk, h0, h3, hb, h50, hs]
    · by_cases h0 : 0 < p.extracted_urls.length
      · have h50x : ¬ 50 < min ((p.attachments.foldl riskAttStep (0, [], false)).1 + 5) 100 := by
          rw [hs] at *
          simp [h0, h3] at h50
          omega
        simp [evaluate_static_risk, h0, h3, hb, h50, h50x, hs, Bool.or_comm]
      · have h50x : ¬ 50 < min (p.attachments.foldl riskAttStep (0, [], false)).1 100 := by
          rw [hs] at *
          simp [h0, h3] at h50
          omega
        simp [evaluate_static_risk, h0, h3, hb, h50, h50x, hs, Bool.or_comm]

/-- C5 (counterexample): on an attachment named a.exe with MIME
application/zip the gate's elif adds only 70, while the claim's additive
reading (each risky-extension attachment +70 AND each zip-MIME attachment
+30) yields 100; so the claim's formula disagrees with the code. -/
theorem static_risk_gate_not_additive :
    (evaluate_static_risk exeZipEmail).2.2 = 70
    ∧ claimed_static_score exeZipEmail = 100
    ∧ (evaluate_static_risk exeZipEmail).2.2 ≠ claimed_static_score exeZipEmail := by
  refine ⟨by decide, by decide, by decide⟩

/-- EmailEvent row (packages/shared/models.py), restricted to the columns the
pipeline reads or writes. Timestamps are epoch seconds; the uuid primary key
is a string. -/
structure EmailEventRec where
  id : String
  user_id : String
  sender : String
  recipient : String
  subject : String
  message_id : String
  body_preview : Option String
  received_at : Option ℤ
  spf_status : Option String
  dkim_status : Option String
  dmarc_status : Option String
  sender_ip : Option String
  status : EmailStatus
  risk_score : Option ℤ
  risk_tier : Option RiskTier
  sandboxed : Bool
  sandbox_result : Option (List (String × String))
  intent : Option String
  intent_confidence : Option ℚ
  intent_indicators : Option (List String)
  intent_processed_at : Option ℤ
  created_at : ℤ
  updated_at : ℤ
deriving DecidableEq, Repr

/-- Control message published on the emails:job stream (wire fields job_id,
requiresB as str(bool), created_at as ISO timestamp modelled in seconds). -/
structure ControlPayload where
  job_id : String
  requiresB : String
  created_at : ℤ
deriving DecidableEq, Repr

/-- Intent-request message published on the emails:intent stream. -/
structure IntentRequestPayload where
  email_id : String
  subject : String
  body : String
deriving DecidableEq, Repr

/-- Analysis-request message published on the emails:analysis stream. -/
structure AnalysisRequestPayload where
  email_id : String
  message_id : String
  extracted_urls : List String
  attachment_metadata : List Attachment
deriving DecidableEq, Repr

/-- Python `a or fallback` over an optional string: None and the empty string
are falsy. -/
def strOrElse (a : Option String) (fallback : String) : String :=
  match a with
  | some s => if s = "" then fallback else s
  | none => fallback

/-- build_email_event from apps/api/routers/emails.py. The fresh uuid4 job id
and the wall-clock time are parameters; returns the persisted row and the
downstream payloads (control, intent-request, optional analysis-request, in
publish order). -/
def build_email_event (job_id : String) (now : ℤ) (user_id : String)
    (email : StructuredEmail) (status : EmailStatus) :
    EmailEventRec × ControlPayload × IntentRequestPayload × Option AnalysisRequestPayload :=
  let event0 : EmailEventRec :=
    { id := job_id
      user_id := user_id
      sender := email.sender
      recipient := email.recipient
      subject := email.subject
      message_id := email.message_id
      body_preview := email.body_preview
      received_at := email.received_at
      spf_status := email.spf_status
      dkim_status := email.dkim_status
      dmarc_status := email.dmarc_status
      sender_ip := email.sender_ip
      status := status
      risk_score := none
      risk_tier := none
      sandboxed := false
      sandbox_result := none
      intent := none
      intent_confidence := none
      intent_indicators := none
      intent_processed_at := none
      created_at := now
      updated_at := now }
  let should_sandbox := (evaluate_static_risk email).1
  let event := if should_sandbox then { event0 with sandboxed := true } else event0
  let control : ControlPayload :=
    { job_id := job_id
      requiresB := pyStrBool should_sandbox
      created_at := email.received_at.getD now }
  let intentReq : IntentRequestPayload :=
    { email_id := job_id
      subject := email.subject
      body := strOrElse email.body_text (strOrElse email.body_html "") }
  let analysisReq : Option AnalysisRequestPayload :=
    if should_sandbox then
      some { email_id := job_id
             message_id := email.message_id
             extracted_urls := email.extracted_urls
             attachment_metadata := email.attachments }
    else none
  (event, control, intentReq, analysisReq)

/-- Per-email ingestion as invoked by the POST /sync endpoint
(apps/api/routers/emails.py sync_emails): status argument is
EmailStatus.PENDING. -/
def sync_emails_ingest_one (job_id : String) (now : ℤ) (user_id : String)
    (email : StructuredEmail) :
    EmailEventRec × ControlPayload × IntentRequestPayload × Option AnalysisRequestPayload :=
  build_email_event job_id now user_id email EmailStatus.PENDING

/-- Per-email ingestion as invoked by the POST /sync/background endpoint
(sync_background): status argument is EmailStatus.PROCESSING. -/
def sync_background_ingest_one (job_id : String) (now : ℤ) (user_id : String)
    (email : StructuredEmail) :
    EmailEventRec × ControlPayload × IntentRequestPayload × Option AnalysisRequestPayload :=
  build_email_event job_id now user_id email EmailStatus.PROCESSING

/-- STATE_TTL from apps/worker/aggregator/main.py, in seconds. -/
def STATE_TTL : ℤ := 600

/-- CLEANUP_INTERVAL from apps/worker/aggregator/main.py, in seconds. -/
def CLEANUP_INTERVAL : ℤ := 60

/-- Per-state decision of cleanup_expired_jobs (aggregator main.py): delete a
job state exactly when its age, the cleanup time minus the state's
created_at, exceeds STATE_TTL. -/
def reapDecision (nowClean created : ℤ) : Bool := decide (STATE_TTL < nowClean - created)

/-- C8 (amended): every ingested email is persisted with
sandboxed = requiresSandbox from the static risk gate, but the initial
status is the caller's argument: PENDING for the manual /sync endpoint and
PROCESSING for the /sync/background endpoint. -/
theorem ingest_status_and_sandboxed (job_id : String) (now : ℤ) (user_id : String)
    (email : StructuredEmail) :
    (sync_emails_ingest_one job_id now user_id email).1.status = EmailStatus.PENDING
    ∧ (sync_background_ingest_one job_id now user_id email).1.status = EmailStatus.PROCESSING
    ∧ (sync_emails_ingest_one job_id now user_id email).1.sandboxed
        = (evaluate_static_risk email).1
    ∧ (sync_background_ingest_one job_id now user_id email).1.sandboxed
        = (evaluate_static_risk email).1 := by
  cases h : (evaluate_static_risk email).1 <;>
    simp [sync_emails_ingest_one, sync_background_ingest_one, build_email_event, h]

/-- C8 (counterexample): an email ingested through the manual /sync endpoint
is persisted with initial status PENDING, not PROCESSING as claimed. -/
theorem sync_ingest_status_is_pending :
    (sync_emails_ingest_one ("job-1") 1000 ("user-1") blankEmail).1.status = EmailStatus.PENDING
    ∧ (sync_emails_ingest_one ("job-1") 1000 ("user-1") blankEmail).1.status
        ≠ EmailStatus.PROCESSING := by
  refine ⟨by decide, by decide⟩

/-- C10: the control message for an email whose header timestamp is present
carries the email's received_at as created_at, not the ingestion time; the
reaper measures a state's age from that value, so any cleanup pass at or
after an ingestion that happened more than STATE_TTL seconds past the
receive date deletes the state. -/
theorem control_created_at_from_received_at (job_id : String) (now : ℤ) (user_id : String)
    (email : StructuredEmail) (st : EmailStatus) (t : ℤ)
    (h : email.received_at = some t) :
    (build_email_event job_id now user_id email st).2.1.created_at = t
    ∧ (STATE_TTL < now - t → ∀ tc : ℤ, now ≤ tc → reapDecision tc t = true) := by
  constructor
  · simp [build_email_event, h]
  · intro hage tc htc
    simp only [reapDecision, STATE_TTL, decide_eq_true_eq] at *
    omega

/-- Witness for control_created_at_from_received_at at a concrete email
received at time 0 and ingested at time 1000. -/
theorem control_created_at_from_received_at_witness :
    (build_email_event ("job-1") 1000 ("user-1") blankEmail EmailStatus.PENDING).2.1.created_at = 0
    ∧ reapDecision 1000 0 = true :=
  ⟨(control_created_at_from_received_at ("job-1") 1000 ("user-1") blankEmail
      EmailStatus.PENDING 0 rfl).1,
   (control_created_at_from_received_at ("job-1") 1000 ("user-1") blankEmail
      EmailStatus.PENDING 0 rfl).2 (by decide) 1000 (by decide)⟩

/-- Python `final_confidence or 0.5` from the intent worker: None and 0.0 are
falsy and fall back to 0.5. -/
def pyConfidence (fc : Option ℚ) : ℚ :=
  match fc with
  | some c => if c = 0 then 1/2 else c
  | none => 1/2

/-- process_email from apps/worker/intent/main.py. The LangGraph analyzer is
an external collaborator: its outcome (success flag and the final intent,
confidence and indicators) is passed in. Returns the updated row and the
success flag the caller uses to decide acknowledgement. The Gmail label
application that follows the commit has no effect on the row or the streams
and is not modelled. -/
def process_email (now : ℤ) (email : EmailEventRec) (analyzerOk : Bool)
    (final_intent : Option Intent) (final_confidence : Option ℚ)
    (final_indicators : Option (List String)) : EmailEventRec × Bool :=
  if analyzerOk then
    let e1 :=
      { email with
        intent := final_intent.map intentValue
        intent_confidence := final_confidence
        intent_indicators := final_indicators
        intent_processed_at := some now }
    let e2 :=
      match final_intent with
      | some i =>
        let confidence := pyConfidence final_confidence
        let score : ℤ := pyInt ((RISK_MAPPING i : ℚ) * confidence + 50 * (1 - confidence))
        { e1 with
          risk_score := some score
          risk_tier := some (if score < 30 then RiskTier.SAFE
            else if score < 80 then RiskTier.CAUTIOUS else RiskTier.THREAT) }
      | none => e1
    ({ e2 with status := EmailStatus.COMPLETED }, true)
  else
    ({ email with status := EmailStatus.FAILED }, false)

/-- Result of handling one message of the emails:intent stream in the intent
worker's run_loop: the updated database, every payload the iteration adds to
the emails:intent:done stream, and whether the message was acknowledged. -/
structure IntentStepResult where
  db : String → Option EmailEventRec
  published_intent_done : List (List (String × String))
  acked : Bool

/-- One iteration of run_loop from apps/worker/intent/main.py over a single
delivered message: parse email_id (missing ⇒ ack and drop), load the row
(missing ⇒ ack and drop), otherwise run process_email and acknowledge only
on success. The loop contains no xadd at all, so published_intent_done
collects nothing on any path. -/
def intent_worker_step (now : ℤ) (db : String → Option EmailEventRec)
    (payload : List (String × String)) (analyzerOk : Bool)
    (final_intent : Option Intent) (final_confidence : Option ℚ)
    (final_indicators : Option (List String)) : IntentStepResult :=
  match payload.lookup ("email_id") with
  | none => { db := db, published_intent_done := [], acked := true }
  | some eid =>
    match db eid with
    | none => { db := db, published_intent_done := [], acked := true }
    | some email =>
      let r := process_email now email analyzerOk final_intent final_confidence final_indicators
      { db := fun k => if k = eid then some r.1 else db k
        published_intent_done := []
        acked := r.2 }

/-- A concrete persisted row, as produced by background ingestion of the
blank email. -/
def exEmailRow : EmailEventRec :=
  (build_email_event ("job-1") 1000 ("user-1") blankEmail EmailStatus.PROCESSING).1

/-- A concrete database holding exactly that row under its job id. -/
def exIntentDb : String → Option EmailEventRec :=
  fun k => if k = "job-1" then some exEmailRow else none

/-- C3: the intent worker's run_loop publishes nothing to the
emails:intent:done stream on any path, and still acknowledges the source
message after a successful process_email; the claimed publish-then-ack of an
intent-done message does not exist in the code. -/
theorem intent_worker_publishes_no_done :
    (∀ (now : ℤ) (db : String → Option EmailEventRec) (payload : List (String × String))
        (ok : Bool) (fi : Option Intent) (fc : Option ℚ) (fis : Option (List String)),
      (intent_worker_step now db payload ok fi fc fis).published_intent_done = [])
    ∧ (intent_worker_step 0 exIntentDb
        [("email_id", "job-1"), ("subject", "s"), ("body", "b")]
        true (some Intent.newsletter) (some (9/10))
        (some ["marketing_copy"])).acked = true := by
  constructor
  · intro now db payload ok fi fc fis
    rcases h : payload.lookup ("email_id") with _ | eid
    · simp [intent_worker_step, h]
    · rcases h2 : db eid with _ | email
      · simp [intent_worker_step, h, h2]
      · simp [intent_worker_step, h, h2]
  · rfl

/-- C4 (counterexample): on the success path the intent worker does change
the status column: a row ingested as PROCESSING comes out COMPLETED. -/
theorem intent_worker_changes_status :
    (process_email 0 exEmailRow true (some Intent.newsletter) (some (9/10))
        (some ["marketing_copy"])).1.status = EmailStatus.COMPLETED
    ∧ exEmailRow.status = EmailStatus.PROCESSING
    ∧ (process_email 0 exEmailRow true (some Intent.newsletter) (some (9/10))
        (some ["marketing_copy"])).1.status ≠ exEmailRow.status := by
  refine ⟨by decide, by decide, by decide⟩

/-- C4 (amended): on the success path the intent worker persists exactly the
six analysis columns (intent, intent_confidence, intent_indicators,
intent_processed_at and — when an intent was classified — risk_score and
risk_tier), leaves every other column unchanged, and additionally sets
status to COMPLETED (it does not leave status unchanged). -/
theorem intent_worker_success_effects (now : ℤ) (email : EmailEventRec)
    (fc : Option ℚ) (fis : Option (List String)) :
    (∀ fi, (process_email now email true fi fc fis).1.status = EmailStatus.COMPLETED
      ∧ (process_email now email true fi fc fis).1.intent = fi.map intentValue
      ∧ (process_email now email true fi fc fis).1.intent_confidence = fc
      ∧ (process_email now email true fi fc fis).1.intent_indicators = fis
      ∧ (process_email now email true fi fc fis).1.intent_processed_at = some now
      ∧ (process_email now email true fi fc fis).1.id = email.id
      ∧ (process_email now email true fi fc fis).1.user_id = email.user_id
      ∧ (process_email now email true fi fc fis).1.sender = email.sender
      ∧ (process_email now email true fi fc fis).1.recipient = email.recipient
      ∧ (process_email now email true fi fc fis).1.subject = email.subject
      ∧ (process_email now email true fi fc fis).1.message_id = email.message_id
      ∧ (process_email now email true fi fc fis).1.body_preview = email.body_preview
      ∧ (process_email now email true fi fc fis).1.received_at = email.received_at
      ∧ (process_email now email true fi fc fis).1.spf_status = email.spf_status
      ∧ (process_email now email true fi fc fis).1.dkim_status = email.dkim_status
      ∧ (process_email now email true fi fc fis).1.dmarc_status = email.dmarc_status
      ∧ (process_email now email true fi fc fis).1.sender_ip = email.sender_ip
      ∧ (process_email now email true fi fc fis).1.sandboxed = email.sandboxed
      ∧ (process_email now email true fi fc fis).1.sandbox_result = email.sandbox_result
      ∧ (process_email now email true fi fc fis).1.created_at = email.created_at)
    ∧ ((process_email now email true none fc fis).1.risk_score = email.risk_score
      ∧ (process_email now email true none fc fis).1.risk_tier = email.risk_tier)
    ∧ (∀ i, (process_email now email true (some i) fc fis).1.risk_score
        = some (pyInt ((RISK_MAPPING i : ℚ) * pyConfidence fc + 50 * (1 - pyConfidence fc)))) := by
  refine ⟨?_, ⟨?_, ?_⟩, ?_⟩
  · intro fi
    cases fi <;> simp [process_email]
  · simp [process_email]
  · simp [process_email]
  · intro i
    simp [process_email]

/-- C6 (amended): the derived risk score truncates (Python int()) instead of
rounding: for a classified intent with confidence 0 < c ≤ 1 the persisted
risk_score is ⌊base·c + 50·(1−c)⌋; for newsletter (base 25) at confidence
0.9 this gives 27, not 28. -/
theorem risk_score_is_truncated (i : Intent) (c : ℚ) (now : ℤ) (email : EmailEventRec)
    (fis : Option (List String)) (h0 : 0 < c) (h1 : c ≤ 1) :
    (process_email now email true (some i) (some c) fis).1.risk_score
      = some ⌊(RISK_MAPPING i : ℚ) * c + 50 * (1 - c)⌋
    ∧ (process_email now email true (some Intent.newsletter) (some (9/10)) fis).1.risk_score
      = some 27 := by
  constructor
  · have hc : pyConfidence (some c) = c := by simp [pyConfidence, h0.ne']
    have hb : (0 : ℚ) ≤ (RISK_MAPPING i : ℚ) := by positivity
    have hpos : 0 ≤ (RISK_MAPPING i : ℚ) * c + 50 * (1 - c) := by nlinarith
    simp [process_email, hc, pyInt, hpos]
  · have h9 : pyConfidence (some ((9 : ℚ)/10)) = 9/10 := by norm_num [pyConfidence]
    simp only [process_email, h9, RISK_MAPPING, pyInt]
    norm_num

/-- Witness for risk_score_is_truncated at newsletter with confidence 0.9. -/
theorem risk_score_is_truncated_witness :
    (process_email 0 exEmailRow true (some Intent.newsletter) (some ((9 : ℚ)/10)) none).1.risk_score
      = some 27 :=
  (risk_score_is_truncated Intent.newsletter ((9 : ℚ)/10) 0 exEmailRow none
    (by norm_num) (by norm_num)).2

/-- C6 (counterexample): at newsletter with confidence 0.9 the code persists
risk_score 27 while the claimed formula round(25·0.9 + 50·0.1) equals 28. -/
theorem risk_score_not_rounded :
    (process_email 0 exEmailRow true (some Intent.newsletter) (some ((9 : ℚ)/10)) none).1.risk_score
      = some 27
    ∧ round ((25 : ℚ) * (9/10) + 50 * (1 - 9/10)) = 28
    ∧ (process_email 0 exEmailRow true (some Intent.newsletter) (some ((9 : ℚ)/10)) none).1.risk_score
      ≠ some (round ((25 : ℚ) * (9/10) + 50 * (1 - 9/10))) := by
  have h9 : pyConfidence (some ((9 : ℚ)/10)) = 9/10 := by norm_num [pyConfidence]
  have hmain : (process_email 0 exEmailRow true (some Intent.newsletter)
      (some ((9 : ℚ)/10)) none).1.risk_score = some 27 := by
    simp only [process_email, h9, RISK_MAPPING, pyInt]
    norm_num
  have hround : round ((25 : ℚ) * (9/10) + 50 * (1 - 9/10)) = 28 := by
    norm_num [round_eq]
  refine ⟨hmain, hround, ?_⟩
  rw [hmain, hround]
  decide

/-- Serialized done-message payload stored in the job-state hash (the code
keeps json.dumps of the whole payload dict; the model keeps the dict). -/
abbrev DonePayload := List (String × String)

/-- Job state hash job_state:<job_id> kept by the aggregator. The boolean
flags are the literal strings the code stores ("true"/"false"); created_at
is the ISO timestamp in the integer-seconds model; intent and sandbox hold
the stored done payloads when present. -/
structure JobState where
  job_id : String
  requiresB : String
  created_at : ℤ
  intent_received : String
  sandbox_received : String
  intent : Option DonePayload
  sandbox : Option DonePayload
deriving DecidableEq, Repr

/-- The aggregator's string-to-bool read: value.lower() == "true". -/
def strToBool (s : String) : Bool := decide (strLower s = "true")

/-- is_job_complete from apps/worker/aggregator/main.py. -/
def is_job_complete (st : JobState) : Bool :=
  if strToBool st.requiresB then strToBool st.intent_received && strToBool st.sandbox_received
  else strToBool st.intent_received

/-- Final-report message published on the job:completed stream. intent is the
stored intent payload (the code serializes it, defaulting to the empty dict);
sandbox is the stored sandbox payload or JSON null (modelled as none). -/
structure FinalReport where
  job_id : String
  message_id : String
  intent : Option DonePayload
  sandbox : Option DonePayload
deriving DecidableEq, Repr

/-- Observable state of the aggregator: the Redis job-state keys, the
email_events table, and the sequence of final-reports appended to
job:completed. -/
structure AggWorld where
  states : String → Option JobState
  db : String → Option EmailEventRec
  reports : List FinalReport

/-- finalize_job from aggregator main.py: if the row is missing, abort and
keep state; otherwise set status COMPLETED, publish the final report (sandbox
included only when requiresB is true and a non-empty sandbox payload was
stored, otherwise JSON null), then delete the job state. -/
def finalize_job (now : ℤ) (w : AggWorld) (job_id : String) (st : JobState) : AggWorld :=
  match w.db job_id with
  | none => w
  | some email =>
    let email2 := { email with status := EmailStatus.COMPLETED, updated_at := now }
    let sandboxField : Option DonePayload :=
      if strToBool st.requiresB then
        match st.sandbox with
        | some p => if p = [] then none else some p
        | none => none
      else none
    let report : FinalReport :=
      { job_id := job_id
        message_id := email.message_id
        intent := st.intent
        sandbox := sandboxField }
    { states := fun k => if k = job_id then none else w.states k
      db := fun k => if k = job_id then some email2 else w.db k
      reports := w.reports ++ [report] }

/-- The five-field state dict both control handling and the out-of-order
synthesis build (intent/sandbox payload fields unset). -/
def freshState (job_id requiresB : String) (created_at : ℤ) : JobState :=
  { job_id := job_id
    requiresB := requiresB
    created_at := created_at
    intent_received := "false"
    sandbox_received := "false"
    intent := none
    sandbox := none }

/-- handle_control from aggregator main.py. Writes the five-field dict with
hset, which merges into an existing hash: the flag fields are overwritten
(intent_received and sandbox_received drop back to "false") while stored
intent/sandbox payload fields survive. requiresB defaults to str(False) when
missing and is lowercased; created_at defaults to now. -/
def handle_control (now : ℤ) (w : AggWorld) (payload_job_id payload_requiresB : Option String)
    (payload_created_at : Option ℤ) : AggWorld :=
  match payload_job_id with
  | none => w
  | some j =>
    let rb := match payload_requiresB with
      | some s => strLower s
      | none => "false"
    let ca := payload_created_at.getD now
    let newSt : JobState :=
      match w.states j with
      | some old => { freshState j rb ca with intent := old.intent, sandbox := old.sandbox }
      | none => freshState j rb ca
    { w with states := fun k => if k = j then some newSt else w.states k }

/-- handle_intent_done from aggregator main.py: load state (synthesizing a
default with requiresB="false" on out-of-order arrival), store the payload,
set intent_received, save, and finalize when complete. -/
def handle_intent_done (now : ℤ) (w : AggWorld) (payload : DonePayload) : AggWorld :=
  match payload.lookup ("job_id") with
  | none => w
  | some j =>
    let st0 := (w.states j).getD (freshState j ("false") now)
    let st1 := { st0 with intent := some payload, intent_received := "true" }
    let w1 := { w with states := fun k => if k = j then some st1 else w.states k }
    if is_job_complete st1 then finalize_job now w1 j st1 else w1

/-- handle_sandbox_done from aggregator main.py: symmetric to the intent
handler, with the synthesized default using requiresB="true". -/
def handle_sandbox_done (now : ℤ) (w : AggWorld) (payload : DonePayload) : AggWorld :=
  match payload.lookup ("job_id") with
  | none => w
  | some j =>
    let st0 := (w.states j).getD (freshState j ("true") now)
    let st1 := { st0 with sandbox := some payload, sandbox_received := "true" }
    let w1 := { w with states := fun k => if k = j then some st1 else w.states k }
    if is_job_complete st1 then finalize_job now w1 j st1 else w1

/-- One delivered message on any of the aggregator's three input streams. -/
inductive AggMsg
  | control (job_id requiresB : Option String) (created_at : Option ℤ)
  | intentDone (payload : DonePayload)
  | sandboxDone (payload : DonePayload)

/-- Dispatch of the aggregator run_loop for one delivered message. -/
def agg_step (now : ℤ) (w : AggWorld) (m : AggMsg) : AggWorld :=
  match m with
  | .control j rb ca => handle_control now w j rb ca
  | .intentDone p => handle_intent_done now w p
  | .sandboxDone p => handle_sandbox_done now w p

/-- A run of the aggregator over a delivered message sequence. -/
def agg_run (now : ℤ) (w : AggWorld) (msgs : List AggMsg) : AggWorld :=
  msgs.foldl (agg_step now) w

/-- C1: the aggregator's completion check holds iff intent was received and
(sandboxing not required or sandbox received); it reads only the two boolean
flags and requiresB, so it is independent of the stored payload content. -/
theorem completion_predicate (st : JobState) :
    is_job_complete st
      = (strToBool st.intent_received && (!strToBool st.requiresB || strToBool st.sandbox_received))
    ∧ ∀ p q, is_job_complete { st with intent := p, sandbox := q } = is_job_complete st := by
  constructor
  · cases h : strToBool st.requiresB <;> simp [is_job_complete, h]
  · intro p q
    rfl

/-- A job state that already recorded intent-done, as stored after control
(requiresB=true) followed by intent-done. -/
def c7State : JobState :=
  { job_id := "j"
    requiresB := "true"
    created_at := 0
    intent_received := "true"
    sandbox_received := "false"
    intent := some [("job_id", "j")]
    sandbox := none }

/-- An aggregator world holding only that state. -/
def c7World : AggWorld :=
  { states := fun k => if k = "j" then some c7State else none
    db := fun _ => none
    reports := [] }

/-- C7 (counterexample): redelivering the identical control message
(requiresB "True", same created_at) to a state that already recorded
intent-done resets intent_received to "false": the stored state changes, so
the handler is not a no-op beyond TTL refresh. -/
theorem control_not_idempotent :
    (agg_step 0 c7World (AggMsg.control (some "j") (some "True") (some 0))).states ("j")
      = some { c7State with intent_received := "false" }
    ∧ (agg_step 0 c7World (AggMsg.control (some "j") (some "True") (some 0))).states ("j")
      ≠ c7World.states ("j") := by
  refine ⟨by decide, by decide⟩

/-- C7 (amended): the control handler unconditionally (re)initializes the
job state — it sets requiresB (lowercased) and created_at from the message
and resets both received flags to "false" — while the hset merge preserves
any stored done payloads; it touches no other job key, no database row and
publishes nothing. It creates state when absent but is not idempotent once a
done flag was set. -/
theorem control_handler_effects (now : ℤ) (w : AggWorld) (j rb : String) (ca : ℤ) :
    (agg_step now w (AggMsg.control (some j) (some rb) (some ca))).states j
      = some { job_id := j
               requiresB := strLower rb
               created_at := ca
               intent_received := "false"
               sandbox_received := "false"
               intent := (w.states j).bind JobState.intent
               sandbox := (w.states j).bind JobState.sandbox }
    ∧ (∀ k, k ≠ j → (agg_step now w (AggMsg.control (some j) (some rb) (some ca))).states k
        = w.states k)
    ∧ (agg_step now w (AggMsg.control (some j) (some rb) (some ca))).db = w.db
    ∧ (agg_step now w (AggMsg.control (some j) (some rb) (some ca))).reports = w.reports := by
  refine ⟨?_, ?_, rfl, rfl⟩
  · cases h : w.states j <;> simp [agg_step, handle_control, h, freshState]
  · intro k hk
    simp [agg_step, handle_control, hk]

/-- Witness for control_handler_effects: a control message for job "j" in
the empty world leaves the state of the unrelated key "k" untouched. -/
theorem control_handler_effects_witness :
    (agg_step 0 { states := fun _ => none, db := fun _ => none, reports := [] }
        (AggMsg.control (some "j") (some "True") (some 5))).states ("k")
      = ({ states := fun _ => none, db := fun _ => none, reports := [] } : AggWorld).states ("k") :=
  (control_handler_effects 0 { states := fun _ => none, db := fun _ => none, reports := [] }
    "j" "True" 5).2.1 "k" (by decide)

/-- Every COMPLETED row already has a final-report on job:completed naming
its job id. -/
def CompletedImpliesReport (w : AggWorld) : Prop :=
  ∀ j e, w.db j = some e → e.status = EmailStatus.COMPLETED →
    ∃ r ∈ w.reports, r.job_id = j

/-- finalize_job preserves CompletedImpliesReport: the only status it sets to
COMPLETED is the finalized job's, and it appends a report for that job. -/
theorem finalize_preserves_invariant (now : ℤ) (w : AggWorld) (job : String) (st : JobState)
    (hw : CompletedImpliesReport w) : CompletedImpliesReport (finalize_job now w job st) := by
  unfold finalize_job
  rcases h : w.db job with _ | email
  · exact hw
  · intro k e hk hc
    by_cases hkj : k = job
    · subst hkj
      exact ⟨_, List.mem_append.mpr (Or.inr (List.mem_singleton_self _)), rfl⟩
    · have hk2 : w.db k = some e := by simpa [hkj] using hk
      obtain ⟨r, hr, hrj⟩ := hw k e hk2 hc
      exact ⟨r, List.mem_append.mpr (Or.inl hr), hrj⟩

/-- One aggregator step preserves CompletedImpliesReport. -/
theorem agg_step_preserves_invariant (now : ℤ) (w : AggWorld) (m : AggMsg)
    (hw : CompletedImpliesReport w) : CompletedImpliesReport (agg_step now w m) := by
  cases m with
  | control j rb ca =>
    cases j with
    | none => exact hw
    | some j => exact fun k e hk hc => hw k e hk hc
  | intentDone p =>
    rcases hjp : p.lookup ("job_id") with _ | j
    · simp only [agg_step, handle_intent_done, hjp]
      exact hw
    · simp only [agg_step, handle_intent_done, hjp]
      split
      · exact finalize_preserves_invariant now _ j _ (fun k e hk hc => hw k e hk hc)
      · exact fun k e hk hc => hw k e hk hc
  | sandboxDone p =>
    rcases hjp : p.lookup ("job_id") with _ | j
    · simp only [agg_step, handle_sandbox_done, hjp]
      exact hw
    · simp only [agg_step, handle_sandbox_done, hjp]
      split
      · exact finalize_preserves_invariant now _ j _ (fun k e hk hc => hw k e hk hc)
      · exact fun k e hk hc => hw k e hk hc

/-- A whole aggregator run preserves CompletedImpliesReport. -/
theorem agg_run_preserves_invariant (now : ℤ) (msgs : List AggMsg) :
    ∀ w : AggWorld, CompletedImpliesReport w → CompletedImpliesReport (agg_run now w msgs) := by
  induction msgs with
  | nil => exact fun w hw => hw
  | cons m t ih => exact fun w hw => ih _ (agg_step_preserves_invariant now w m hw)

/-- C2 (amended): over any delivered message sequence (any order, any
duplication), every job whose row reaches COMPLETED has at least one
final-report naming it on job:completed. Exactly-once does not hold at the
aggregator: a duplicate intent-done after state deletion re-finalizes and
publishes again (see the counterexample), so exactly-once is deferred to the
receiver-side idempotency of the action layer. -/
theorem completed_job_has_final_report (now : ℤ) (w0 : AggWorld) (msgs : List AggMsg)
    (h0 : ∀ j e, w0.db j = some e → e.status ≠ EmailStatus.COMPLETED)
    (j : String) (e : EmailEventRec)
    (hdb : (agg_run now w0 msgs).db j = some e)
    (hst : e.status = EmailStatus.COMPLETED) :
    ∃ r ∈ (agg_run now w0 msgs).reports, r.job_id = j := by
  have hw0 : CompletedImpliesReport w0 := fun k e2 hk hc => absurd hc (h0 k e2 hk)
  exact agg_run_preserves_invariant now msgs w0 hw0 j e hdb hst

/-- An aggregator world whose database holds the single PROCESSING row for
job-1 and which has published nothing yet. -/
def c2World : AggWorld :=
  { states := fun _ => none
    db := fun k => if k = "job-1" then some exEmailRow else none
    reports := [] }

/-- Twice-delivered intent-done for job-1 (at-least-once redelivery, the
second arriving after the first finalization deleted the state). -/
def c2DupTrace : List AggMsg :=
  [AggMsg.intentDone [("job_id", "job-1")], AggMsg.intentDone [("job_id", "job-1")]]

/-- C2 (counterexample): a duplicate intent-done delivered after the job's
state was deleted synthesizes fresh state (requiresB "false"), finds it
complete, and finalizes again: the job reaches COMPLETED yet two
final-reports are published on job:completed. -/
theorem duplicate_intent_done_publishes_twice :
    (agg_run 0 c2World c2DupTrace).reports.length = 2
    ∧ (agg_run 0 c2World c2DupTrace).reports.map FinalReport.job_id = ["job-1", "job-1"]
    ∧ ((agg_run 0 c2World c2DupTrace).db ("job-1")).map EmailEventRec.status
        = some EmailStatus.COMPLETED := by
  refine ⟨by decide, by decide, by decide⟩

/-- Witness for completed_job_has_final_report: a single intent-done on the
c2World database completes job-1 and yields a report naming it. -/
theorem completed_job_has_final_report_witness :
    ∃ r ∈ (agg_run 0 c2World [AggMsg.intentDone [("job_id", "job-1")]]).reports,
      r.job_id = "job-1" :=
  completed_job_has_final_report 0 c2World [AggMsg.intentDone [("job_id", "job-1")]]
    (by
      intro j e hj hc
      by_cases h : j = "job-1"
      · subst h
        have he : some exEmailRow = some e := by simpa [c2World] using hj
        injection he with he2
        subst he2
        exact absurd hc (by decide)
      · simp [c2World, h] at hj)
    "job-1" { exEmailRow with status := EmailStatus.COMPLETED, updated_at := 0 }
    (by decide) (by decide)

/-- SandboxResult model of apps/worker/action/main.py. -/
structure SandboxResultPayload where
  verdict : String
  score : ℤ
  family : Option String
  confidence : ℚ
deriving DecidableEq, Repr

/-- DecisionMetadata model of apps/worker/action/main.py. -/
structure DecisionMetadata where
  provider : String
  timed_out : Bool
  reason : Option String
deriving DecidableEq, Repr

/-- UnifiedDecisionPayload: the request the action worker handles. -/
structure UnifiedDecisionPayload where
  message_id : String
  static_risk_score : ℤ
  sandboxed : Bool
  sandbox_result : Option SandboxResultPayload
  decision_metadata : DecisionMetadata
  extracted_urls : Option (List String)
deriving DecidableEq, Repr

/-- VERDICT_TO_LABEL from apps/worker/action/gmail_labels.py. -/
def VERDICT_TO_LABEL : List (String × String) :=
  [("malicious", "MailShield/MALICIOUS"),
   ("suspicious", "MailShield/CAUTIOUS"),
   ("clean", "MailShield/SAFE"),
   ("safe", "MailShield/SAFE")]

/-- get_label_for_verdict from gmail_labels.py: table lookup on the
lowercased verdict, defaulting to MailShield/CAUTIOUS. -/
def get_label_for_verdict (v : String) : String :=
  (VERDICT_TO_LABEL.lookup (strLower v)).getD ("MailShield/CAUTIOUS")

/-- ActionResult audit record of apps/worker/action/main.py. -/
structure ActionResultRec where
  message_id : String
  original_verdict : String
  final_verdict : String
  label_applied : String
  moved_to_spam : Bool
  ai_analysis_used : Bool
deriving DecidableEq, Repr

/-- process_action from apps/worker/action/main.py. The Gemini fallback
verdict and the Gmail outcome are external inputs. Returns the audit record
and the updated processed-set. The default verdict is "clean" when
sandbox_result is absent; an "unknown" verdict triggers the AI fallback when
URLs are available and is otherwise promoted to "suspicious". -/
def process_action (moveMaliciousToSpam : Bool) (processed : List String)
    (aiVerdict : String) (gmailOk : Bool) (p : UnifiedDecisionPayload) :
    ActionResultRec × List String :=
  if p.message_id ∈ processed then
    ({ message_id := p.message_id
       original_verdict := "skipped"
       final_verdict := "skipped"
       label_applied := "none"
       moved_to_spam := false
       ai_analysis_used := false }, processed)
  else
    let processed2 := processed ++ [p.message_id]
    let original := match p.sandbox_result with
      | some r => r.verdict
      | none => "clean"
    let urlsTruthy := match p.extracted_urls with
      | some l => !l.isEmpty
      | none => false
    let fa :=
      if original = "unknown" then
        if urlsTruthy then (aiVerdict, true) else ("suspicious", false)
      else (original, false)
    let move := moveMaliciousToSpam && decide (fa.1 = "malicious")
    let label0 := get_label_for_verdict fa.1
    let label := if gmailOk then label0 else "FAILED"
    ({ message_id := p.message_id
       original_verdict := original
       final_verdict := fa.1
       label_applied := label
       moved_to_spam := move
       ai_analysis_used := fa.2 }, processed2)

/-- A decision payload whose sandbox verdict is unknown and which carries a
URL, so the Gemini fallback fires. -/
def c9Payload : UnifiedDecisionPayload :=
  { message_id := "m-9"
    static_risk_score := 70
    sandboxed := true
    sandbox_result := some { verdict := "unknown", score := 50, family := none, confidence := 0 }
    decision_metadata := { provider := "sandbox", timed_out := true, reason := none }
    extracted_urls := some ["http://x.example"] }

/-- C9 (counterexample): with sandbox verdict unknown and URLs present, the
action worker does not promote to suspicious: it adopts the AI fallback
verdict (here "safe") and applies MailShield/SAFE, not
MailShield/CAUTIOUS. -/
theorem unknown_with_urls_uses_ai_fallback :
    (process_action true [] ("safe") true c9Payload).1.final_verdict = "safe"
    ∧ (process_action true [] ("safe") true c9Payload).1.final_verdict ≠ "suspicious"
    ∧ (process_action true [] ("safe") true c9Payload).1.label_applied = "MailShield/SAFE"
    ∧ (process_action true [] ("safe") true c9Payload).1.label_applied
        ≠ "MailShield/CAUTIOUS" := by
  refine ⟨by decide, by decide, by decide, by decide⟩

/-- C9 (amended): for a not-yet-processed message the final verdict is clean
when sandbox_result is absent, the sandbox verdict verbatim when it is not
"unknown", the promotion to suspicious for "unknown" only when no URLs are
available, and the AI fallback verdict for "unknown" with URLs; the applied
label is the table image of the final verdict: malicious → MALICIOUS,
suspicious → CAUTIOUS, clean and safe → SAFE, with unknown (and any other
string) defaulting to CAUTIOUS. -/
theorem action_verdict_derivation (moveFlag : Bool) (processed : List String)
    (ai : String) (p : UnifiedDecisionPayload)
    (hnew : p.message_id ∉ processed) :
    (p.sandbox_result = none →
      (process_action moveFlag processed ai true p).1.final_verdict = "clean")
    ∧ (∀ sr, p.sandbox_result = some sr → sr.verdict ≠ "unknown" →
      (process_action moveFlag processed ai true p).1.final_verdict = sr.verdict)
    ∧ (∀ sr, p.sandbox_result = some sr → sr.verdict = "unknown" →
        (p.extracted_urls = none ∨ p.extracted_urls = some []) →
      (process_action moveFlag processed ai true p).1.final_verdict = "suspicious")
    ∧ (∀ sr l, p.sandbox_result = some sr → sr.verdict = "unknown" →
        p.extracted_urls = some l → l ≠ [] →
      (process_action moveFlag processed ai true p).1.final_verdict = ai)
    ∧ (process_action moveFlag processed ai true p).1.label_applied
        = get_label_for_verdict (process_action moveFlag processed ai true p).1.final_verdict
    ∧ get_label_for_verdict ("malicious") = "MailShield/MALICIOUS"
    ∧ get_label_for_verdict ("suspicious") = "MailShield/CAUTIOUS"
    ∧ get_label_for_verdict ("clean") = "MailShield/SAFE"
    ∧ get_label_for_verdict ("safe") = "MailShield/SAFE"
    ∧ get_label_for_verdict ("unknown") = "MailShield/CAUTIOUS" := by
  refine ⟨?_, ?_, ?_, ?_, ?_, by decide, by decide, by decide, by decide, by decide⟩
  · intro h
    simp [process_action, hnew, h]
  · intro sr h hne
    simp [process_action, hnew, h, hne]
  · intro sr h hu hurls
    rcases hurls with h2 | h2 <;> simp [process_action, hnew, h, hu, h2]
  · intro sr l h hu hl hne
    simp [process_action, hnew, h, hu, hl, hne]
  · simp [process_action, hnew]

/-- A decision payload with no sandbox result at all. -/
def c9CleanPayload : UnifiedDecisionPayload :=
  { message_id := "m-10"
    static_risk_score := 0
    sandboxed := false
    sandbox_result := none
    decision_metadata := { provider := "none", timed_out := false, reason := none }
    extracted_urls := none }

/-- Witness for action_verdict_derivation: a fresh message without sandbox
result gets final verdict clean. -/
theorem action_verdict_derivation_witness :
    (process_action true [] ("safe") true c9CleanPayload).1.final_verdict = "clean" :=
  (action_verdict_derivation true [] ("safe") c9CleanPayload (by decide)).1 rfl

end MailShield
